import Mathlib

/-!
# Shallow embedding of the Vibe Coder Stack Planner core

This file embeds the session store, the step-handler tools and the
recommendation engine of `vibe_stack_planner.py` as executable Lean
definitions, and proves the specification's claims about them.

Conventions of the embedding:
* Python strings are Lean `String`s; character-level operations go through
  `String.data` (a `List Char`) so that every definition reduces in the
  kernel.  Python's `str.lower`, `str.strip`, `str.split(',')`,
  `'sep'.join`, slicing `[:n]` and the substring test `in` are embedded by
  the `py*`-named helpers below, each faithful to CPython semantics on the
  ASCII inputs the planner manipulates.
* The module-level dict `planning_sessions` becomes an explicit association
  list `Store` threaded through each tool; Python's `max(keys)` becomes
  `maxEntry` with the code-point lexicographic order `strLt`.
* `ctx.info` calls are logging only and are dropped.  `datetime.now()` is a
  parameter (`ts`, `now_iso`) wherever the source reads the clock.
* Each tool returns its new store together with the exact text the Python
  function returns; `recommend_stack`, whose payload-absent branch raises
  `TypeError` at runtime, returns a `CallOutcome` distinguishing a returned
  string from that raised exception.
-/

/-- Python `str.lower()` restricted to the ASCII data the planner handles. -/
def pyLower (s : String) : String := ⟨s.data.map Char.toLower⟩

/-- Python slicing `s[:n]` (first `n` code points). -/
def pyTake (s : String) (n : Nat) : String := ⟨s.data.take n⟩

/-- Python `s.replace(c, r)` for a one-character pattern, as used by
`replace('_', ' ')` in the explanation texts. -/
def pyReplaceChar (s : String) (c r : Char) : String :=
  ⟨s.data.map (fun x => if x = c then r else x)⟩

/-- Python `'sep'.join(l)`. -/
def joinWith (sep : String) : List String → String
  | [] => ""
  | [x] => x
  | x :: y :: ys => x ++ sep ++ joinWith sep (y :: ys)

/-- Does `hay` start with `needle`?  (Helper for the substring test.) -/
def listStarts (needle hay : List Char) : Bool :=
  match needle, hay with
  | [], _ => true
  | _ :: _, [] => false
  | a :: as, b :: bs => a == b && listStarts as bs

/-- Python's `needle in hay` substring test, on character lists. -/
def listHasSub (hay needle : List Char) : Bool :=
  match hay with
  | [] => needle.isEmpty
  | _ :: t => listStarts needle hay || listHasSub t needle

/-- Python's `needle in hay` substring test on strings. -/
def strHasSub (hay needle : String) : Bool := listHasSub hay.data needle.data

/-- The characters Python's default `str.strip()` removes. -/
def isPySpace (c : Char) : Bool :=
  c = ' ' || c = '\t' || c = '\n' || c = '\r' || c = Char.ofNat 11 || c = Char.ofNat 12

/-- Drop trailing `isPySpace` characters (structural recursion). -/
def dropTrailing : List Char → List Char
  | [] => []
  | c :: t =>
    match dropTrailing t with
    | [] => if isPySpace c then [] else [c]
    | h :: t' => c :: h :: t'

/-- Python `str.strip()` on character lists. -/
def stripChars (l : List Char) : List Char := dropTrailing (l.dropWhile isPySpace)

/-- Python `str.strip()`. -/
def pyStrip (s : String) : String := ⟨stripChars s.data⟩

/-- Accumulator for `splitCommaChars`; mirrors Python `str.split(',')`. -/
def splitCommaAux : List Char → List Char → List (List Char)
  | [], acc => [acc.reverse]
  | c :: rest, acc =>
    if c = ',' then acc.reverse :: splitCommaAux rest []
    else splitCommaAux rest (c :: acc)

/-- Python `s.split(',')` on character lists: `""` gives `[""]`, adjacent
commas give empty segments. -/
def splitCommaChars (l : List Char) : List (List Char) := splitCommaAux l []

/-- Code-point comparison of character lists (Python string `<`). -/
def charsLt : List Char → List Char → Bool
  | [], [] => false
  | [], _ :: _ => true
  | _ :: _, [] => false
  | a :: as, b :: bs =>
    if a.val < b.val then true
    else if b.val < a.val then false
    else charsLt as bs

/-- Python string comparison `a < b` (code-point lexicographic). -/
def strLt (a b : String) : Bool := charsLt a.data b.data

/-- The `ProjectRequirements` dataclass.  `core_features` defaults to `[]`
(the `__post_init__` normalisation of `None`); `gathered_at` is set from the
clock at construction, which the embedding receives as a parameter. -/
structure ProjectRequirements where
  project_vision : String := ""
  target_users : String := ""
  user_interaction : String := ""
  core_features : List String := []
  data_needs : String := ""
  user_scale : String := ""
  timeline : String := ""
  budget_level : String := ""
  technical_comfort : String := ""
  gathered_at : String := ""
deriving DecidableEq, Repr

/-- `ProjectRequirements()` as `__post_init__` leaves it: all fields empty
except `gathered_at = datetime.now().isoformat()`, passed in as `now_iso`. -/
def mkDefaultRequirements (now_iso : String) : ProjectRequirements :=
  { gathered_at := now_iso }

/-- The module-level `planning_sessions` dict, as an association list in
insertion order with unique keys. -/
abbrev Store := List (String × ProjectRequirements)

/-- `planning_sessions[sid]` (first binding wins; keys are unique). -/
def lookupSession : Store → String → Option ProjectRequirements
  | [], _ => none
  | (k, v) :: rest, sid => if k = sid then some v else lookupSession rest sid

/-- `planning_sessions[sid] = r`: overwrite in place or append. -/
def insertSession : Store → String → ProjectRequirements → Store
  | [], sid, r => [(sid, r)]
  | (k, v) :: rest, sid, r =>
    if k = sid then (k, r) :: rest else (k, v) :: insertSession rest sid r

/-- The entry whose key is `max(planning_sessions.keys())`. -/
def maxEntry : Store → Option (String × ProjectRequirements)
  | [] => none
  | e :: rest =>
    match maxEntry rest with
    | none => some e
    | some m => if strLt e.1 m.1 then some m else some e

/-- `max(planning_sessions.keys())`, defined when the store is nonempty. -/
def maxKey (store : Store) : Option String := (maxEntry store).map (fun e => e.1)

/-! ## The recommendation engine (`_analyze_requirements`) -/

/-- The `recommendations` dict built by `_analyze_requirements`. -/
structure Recommendations where
  stack_summary : String
  reasoning : String
  cost_estimate : String
  complexity_level : String
deriving DecidableEq, Repr

/-- The haystack `requirements.data_needs.lower() + ' '.join(requirements.core_features).lower()`
shared by the database and real-time keyword scans. -/
def dataFeaturesHay (r : ProjectRequirements) : String :=
  pyLower r.data_needs ++ pyLower (joinWith " " r.core_features)

/-- `needs_database`: any of the keywords occurs in `data_needs` + joined features. -/
def needs_database (r : ProjectRequirements) : Bool :=
  (["store", "save", "profile", "user", "account", "data", "records"]).any
    (fun kw => strHasSub (dataFeaturesHay r) kw)

/-- `needs_auth`: any of the keywords occurs in the joined features alone. -/
def needs_auth (r : ProjectRequirements) : Bool :=
  (["login", "account", "user", "profile", "auth", "signup"]).any
    (fun kw => strHasSub (pyLower (joinWith " " r.core_features)) kw)

/-- `needs_real_time`: any of the keywords occurs in `data_needs` + joined features. -/
def needs_real_time (r : ProjectRequirements) : Bool :=
  (["chat", "message", "notification", "real-time", "live", "collaborative"]).any
    (fun kw => strHasSub (dataFeaturesHay r) kw)

/-- `frontend_rec` (a constant in this revision). -/
def frontend_rec : String := "Next.js 15 with App Router"

/-- The Python membership test `technical_comfort in ['avoid_technical', 'basic_setup']`. -/
def lowComfort (r : ProjectRequirements) : Bool :=
  r.technical_comfort == "avoid_technical" || r.technical_comfort == "basic_setup"

/-- `backend_rec`: the branch cascade of `_analyze_requirements` lines 131-145. -/
def backend_rec (r : ProjectRequirements) : String :=
  if needs_database r && needs_auth r then
    if lowComfort r then
      "Next.js API routes with Supabase (includes auth + database)"
    else
      "Next.js API routes with Neon (serverless Postgres) + Clerk auth"
  else if needs_database r then
    "Next.js API routes with Neon (serverless Postgres)"
  else if needs_auth r then
    "Next.js API routes with Clerk auth"
  else
    "Next.js API routes (for any server functionality)"

/-- `hosting_rec` (a constant). -/
def hosting_rec : String := "Vercel"

/-- The `stack_summary` f-string block. -/
def stack_summary_of (r : ProjectRequirements) : String :=
  "\n• Frontend: " ++ frontend_rec ++ "\n• Backend: " ++ backend_rec r ++
  " \n• Styling: Tailwind CSS + shadcn/ui components\n• Hosting: " ++ hosting_rec ++
  "\n• Domain: Namecheap (~$12/year)\n"

/-- The `reasoning` sentence list, joined with ". " and closed by a period. -/
def reasoning_of (r : ProjectRequirements) : String :=
  joinWith ". "
    (["This is the proven 2025 'Vibe Stack' - optimized for speed and simplicity"] ++
     (if lowComfort r then
        ["These tools have excellent documentation and AI assistant support"]
      else []) ++
     ["Everything scales automatically as you grow",
      "Web app works perfectly on desktop and mobile browsers"]) ++ "."

/-- The `cost_estimate` branch on `budget_level` (lines 173-178). -/
def cost_estimate_of (r : ProjectRequirements) : String :=
  if r.budget_level == "free_only" then
    "$0-20/month (generous free tiers + domain)"
  else if r.budget_level == "low_cost" then
    "$20-50/month"
  else
    "$50-150/month with room to scale"

/-- The `complexity_level` branch on `technical_comfort` (lines 181-186). -/
def complexity_level_of (r : ProjectRequirements) : String :=
  if lowComfort r then
    "Low - guided setup with excellent AI coding assistant support"
  else if r.technical_comfort == "some_technical" then
    "Medium - straightforward setup, some coding required"
  else
    "Medium - full control with modern tooling"

/-- `_analyze_requirements`: the pure recommendation engine. -/
def analyze_requirements (r : ProjectRequirements) : Recommendations :=
  { stack_summary := stack_summary_of r
    reasoning := reasoning_of r
    cost_estimate := cost_estimate_of r
    complexity_level := complexity_level_of r }

/-! ## The step-handler tools -/

/-- The guidance text returned by `start_project_planning`. -/
def start_planning_text : String :=
  "🚀 Let's plan your tech stack! I'll ask you a series of simple questions.\n\n" ++
  "**IMPORTANT**: This is an interactive process. I will ask you questions and YOU need to provide the answers. Do not answer the questions yourself - wait for the user to respond to each step.\n\n" ++
  "**Step 1: Tell me about your project vision**\n\n" ++
  "Please describe what you want to build:\n" ++
  "- What problem are you trying to solve?\n" ++
  "- What would this app/website do?\n" ++
  "- Why would people want to use it?\n\n" ++
  "Just explain it like you're telling a friend about your idea! Once you provide this, I'll guide you through the next steps.\n\n" ++
  "*Example: \"I want to build a simple task management app for my small team. We're always forgetting who's supposed to do what and when things are due.\"*\n\n" ++
  "After you tell me about your vision, I'll ask you about:\n" ++
  "- Who will use it and how\n" ++
  "- What features you need  \n" ++
  "- Your timeline and budget\n" ++
  "- Your technical comfort level\n\n" ++
  "Then I'll recommend the perfect tech stack for your needs!"

/-- `start_project_planning`: emits guidance text only; the store is untouched
(no session is created here). -/
def start_project_planning (store : Store) : Store × String :=
  (store, start_planning_text)

/-- The session id `f"planning_{datetime.now().strftime('%Y%m%d_%H%M%S')}"`;
`ts` stands for the formatted timestamp. -/
def sessionIdFor (ts : String) : String := "planning_" ++ ts

/-- `collect_project_vision`: creates the session (fresh id from the clock,
default record) and stores the vision.  `ts` is the id timestamp, `now_iso`
the `gathered_at` timestamp, both read from `datetime.now()` in the source. -/
def collect_project_vision (store : Store) (ts now_iso project_vision : String) :
    Store × String :=
  let sid := sessionIdFor ts
  let r := { mkDefaultRequirements now_iso with project_vision := project_vision }
  (insertSession store sid r,
    "Great! I understand you want to build: \"" ++ project_vision ++ "\"\n\n" ++
    "**Step 2: Tell me about your users and how they'll interact**\n\n" ++
    "Please tell me:\n" ++
    "- **Who will use this?** (e.g., \"My team of 8 people\", \"Small business owners\", \"Anyone who needs to track tasks\")\n" ++
    "- **How will they use it?** (e.g., \"Check it daily\", \"Use occasionally\", \"On mobile while traveling\")\n\n" ++
    "Use the `collect_user_info` tool with this information to continue!")

/-- The no-active-session message shared by the step handlers. -/
def noSessionMsg : String :=
  "No active planning session. Please start with `start_project_planning` first."

/-- The unknown-session message: `f"Session {session_id} not found. ..."`. -/
def sessionNotFoundMsg (sid : String) : String :=
  "Session " ++ sid ++ " not found. Please start a new planning session."

/-- Resolve an optional session id the way every step handler does: an
explicit id is used as given; otherwise the lexicographically maximal key
(`max(planning_sessions.keys())`), or `none` on empty store. -/
def resolveSid (store : Store) (sid? : Option String) : Option String :=
  match sid? with
  | some sid => some sid
  | none => maxKey store

/-- `collect_user_info`: records the target users and interaction style. -/
def collect_user_info (store : Store) (target_users user_interaction : String)
    (sid? : Option String) : Store × String :=
  match resolveSid store sid? with
  | none => (store, noSessionMsg)
  | some sid =>
    match lookupSession store sid with
    | none => (store, sessionNotFoundMsg sid)
    | some r =>
      (insertSession store sid
        { r with target_users := target_users, user_interaction := user_interaction },
       "Perfect! So your users are: \"" ++ target_users ++ "\" and they'll use it: \"" ++
       user_interaction ++ "\"\n\n" ++
       "**Step 3: Features and data needs**\n\n" ++
       "Please tell me:\n" ++
       "- **What will people do with it?** (e.g., \"Create tasks, assign to people, mark complete, see progress\")\n" ++
       "- **What information will it handle?** (e.g., \"Task details, user profiles, due dates, completion status\")\n\n" ++
       "Use the `collect_features_data` tool to continue!")

/-- The list comprehension
`[f.strip() for f in core_features.split(',') if f.strip()]`. -/
def parse_core_features (s : String) : List String :=
  (((splitCommaChars s.data).map (fun seg => (⟨stripChars seg⟩ : String))).filter
    (fun f => f ≠ ""))

/-- The enum-choice text shared by `collect_features_data` (Step 4). -/
def featuresStepTail : String :=
  "**Step 4: Timeline and budget (final step!)**\n\n" ++
  "Please tell me:\n" ++
  "- **When do you need this?** Choose one:\n" ++
  "  - \"experimental\" (just experimenting, no rush)\n" ++
  "  - \"few_weeks\" (within a few weeks for a basic version)  \n" ++
  "  - \"month_or_two\" (need something in a month or two)\n" ++
  "  - \"urgent\" (this is urgent, need it ASAP)\n\n" ++
  "- **Budget level?** Choose one:\n" ++
  "  - \"free_only\" (free or very low cost only)\n" ++
  "  - \"low_cost\" (can spend a little bit ~$10-50/month)\n" ++
  "  - \"reasonable\" (reasonable budget for a good solution ~$50-200/month)\n" ++
  "  - \"flexible\" (budget is not a major constraint)\n\n" ++
  "- **Technical comfort?** Choose one:\n" ++
  "  - \"avoid_technical\" (I avoid technical things when possible)\n" ++
  "  - \"basic_setup\" (I can handle basic setup with good instructions)\n" ++
  "  - \"some_technical\" (I'm comfortable with some technical work)\n" ++
  "  - \"enjoy_technical\" (I enjoy diving into technical details)\n\n" ++
  "Use the `finalize_planning` tool to get your recommendations!"

/-- `collect_features_data`: splits the comma-separated feature string and
records it with the data needs. -/
def collect_features_data (store : Store) (core_features data_needs : String)
    (sid? : Option String) : Store × String :=
  match resolveSid store sid? with
  | none => (store, noSessionMsg)
  | some sid =>
    match lookupSession store sid with
    | none => (store, sessionNotFoundMsg sid)
    | some r =>
      (insertSession store sid
        { r with core_features := parse_core_features core_features,
                 data_needs := data_needs },
       "Excellent! Features: \"" ++ core_features ++ "\" and data needs: \"" ++
       data_needs ++ "\"\n\n" ++ featuresStepTail)

/-- `valid_scales` of `collect_scale_timeline`. -/
def valid_scales : List String :=
  ["personal", "small_community", "hundreds", "thousands_plus"]

/-- `valid_timelines` of `collect_scale_timeline` and `finalize_planning`. -/
def valid_timelines : List String :=
  ["experimental", "few_weeks", "month_or_two", "urgent"]

/-- `valid_budgets` of `finalize_planning`. -/
def valid_budgets : List String :=
  ["free_only", "low_cost", "reasonable", "flexible"]

/-- `valid_comfort` of `finalize_planning`. -/
def valid_comfort : List String :=
  ["avoid_technical", "basic_setup", "some_technical", "enjoy_technical"]

/-- `f"Invalid user_scale. Please choose one of: {', '.join(valid_scales)}"`. -/
def invalidScaleMsg : String :=
  "Invalid user_scale. Please choose one of: " ++ joinWith ", " valid_scales

/-- `f"Invalid timeline. Please choose one of: {', '.join(valid_timelines)}"`. -/
def invalidTimelineMsg : String :=
  "Invalid timeline. Please choose one of: " ++ joinWith ", " valid_timelines

/-- `f"Invalid budget_level. Please choose one of: {', '.join(valid_budgets)}"`. -/
def invalidBudgetMsg : String :=
  "Invalid budget_level. Please choose one of: " ++ joinWith ", " valid_budgets

/-- `f"Invalid technical_comfort. Please choose one of: {', '.join(valid_comfort)}"`. -/
def invalidComfortMsg : String :=
  "Invalid technical_comfort. Please choose one of: " ++ joinWith ", " valid_comfort

/-- The budget/comfort enum text shared by `collect_scale_timeline` (Step 5). -/
def scaleStepTail : String :=
  "**Step 5: Budget and technical comfort (final step!)**\n\n" ++
  "Please tell me:\n" ++
  "- **Budget level?** Choose one:\n" ++
  "  - \"free_only\" (free or very low cost only)\n" ++
  "  - \"low_cost\" (can spend a little bit ~$10-50/month)\n" ++
  "  - \"reasonable\" (reasonable budget for a good solution ~$50-200/month)\n" ++
  "  - \"flexible\" (budget is not a major constraint)\n\n" ++
  "- **Technical comfort?** Choose one:\n" ++
  "  - \"avoid_technical\" (I avoid technical things when possible)\n" ++
  "  - \"basic_setup\" (I can handle basic setup with good instructions)\n" ++
  "  - \"some_technical\" (I'm comfortable with some technical work)\n" ++
  "  - \"enjoy_technical\" (I enjoy diving into technical details)\n\n" ++
  "Use the `finalize_planning` tool to get your recommendations!"

/-- `collect_scale_timeline`: validates `user_scale` and `timeline`, then
stores `timeline` as given but `user_scale` as the fixed `"small_start"`
sentinel (the submitted scale is never stored). -/
def collect_scale_timeline (store : Store) (user_scale timeline : String)
    (sid? : Option String) : Store × String :=
  match resolveSid store sid? with
  | none => (store, noSessionMsg)
  | some sid =>
    match lookupSession store sid with
    | none => (store, sessionNotFoundMsg sid)
    | some r =>
      if valid_scales.contains user_scale = false then (store, invalidScaleMsg)
      else if valid_timelines.contains timeline = false then (store, invalidTimelineMsg)
      else
        (insertSession store sid
          { r with user_scale := "small_start", timeline := timeline },
         "Great! Timeline: \"" ++ timeline ++ "\"\n\n" ++ scaleStepTail)

/-- The success text of `finalize_planning`, substituting the record and the
engine output. -/
def finalizeText (r : ProjectRequirements) (recs : Recommendations) : String :=
  "🎉 Perfect! Based on everything you've told me, here's my recommendation:\n\n" ++
  "**Your Project Summary:**\n" ++
  "- Vision: " ++ r.project_vision ++ "\n" ++
  "- Users: " ++ r.target_users ++ "\n" ++
  "- Timeline: " ++ r.timeline ++ "\n" ++
  "- Budget: " ++ r.budget_level ++ ", Technical comfort: " ++ r.technical_comfort ++ "\n" ++
  "- Approach: Starting small and scaling up (vibe coder best practice)\n\n" ++
  "**Recommended Tech Stack:**\n" ++ recs.stack_summary ++ "\n\n" ++
  "**Why this works for you:**\n" ++ recs.reasoning ++ "\n\n" ++
  "**Estimated monthly cost:** " ++ recs.cost_estimate ++ "\n" ++
  "**Setup complexity:** " ++ recs.complexity_level ++ "\n\n" ++
  "Use the `get_deployment_guide` tool to get step-by-step instructions for setting this up!\n\n" ++
  "You can also use `explain_recommendation` if you want more details about why I suggested this approach."

/-- `finalize_planning`: validates the three enum fields in order, stores them
exactly as given (plus the `"small_start"` scale sentinel), then runs the
engine and formats the result. -/
def finalize_planning (store : Store) (timeline budget_level technical_comfort : String)
    (sid? : Option String) : Store × String :=
  match resolveSid store sid? with
  | none => (store, noSessionMsg)
  | some sid =>
    match lookupSession store sid with
    | none => (store, sessionNotFoundMsg sid)
    | some r =>
      if valid_timelines.contains timeline = false then (store, invalidTimelineMsg)
      else if valid_budgets.contains budget_level = false then (store, invalidBudgetMsg)
      else if valid_comfort.contains technical_comfort = false then (store, invalidComfortMsg)
      else
        let r' := { r with timeline := timeline, budget_level := budget_level,
                           technical_comfort := technical_comfort,
                           user_scale := "small_start" }
        (insertSession store sid r', finalizeText r' (analyze_requirements r'))

/-- The outcome of `json.loads(session_requirements)` followed by
`ProjectRequirements(**req_data)`.  The JSON parser is the Python standard
library, not repository code, so the embedding takes its outcome as input:
`ok` is a successfully constructed record, `parseError` carries `str(e)` of
the caught `json.JSONDecodeError` or `TypeError` (bad shape). -/
inductive ParsedPayload where
  | ok (r : ProjectRequirements)
  | parseError (diag : String)
deriving DecidableEq, Repr

/-- The direct-recommendation text of `recommend_stack`. -/
def recommendText (recs : Recommendations) : String :=
  "**Tech Stack Recommendation:**\n\n" ++ recs.stack_summary ++
  "\n\n**Reasoning:** " ++ recs.reasoning ++
  "\n**Estimated Cost:** " ++ recs.cost_estimate ++
  "\n**Setup Complexity:** " ++ recs.complexity_level

/-- `f"Error parsing requirements: {e}. Please use start_project_planning instead."`. -/
def parseErrorMsg (diag : String) : String :=
  "Error parsing requirements: " ++ diag ++ ". Please use start_project_planning instead."

/-- How a call to `recommend_stack` ends: `ret` is a normally returned
string, `typeError` the `TypeError` raised when line 453 executes
`return await start_project_planning()` — the module-level name is bound to
the `@mcp.tool()`-decorated object and the underlying function requires its
positional `ctx: Context` parameter, which no fastmcp release injects on a
direct in-module call, so the called body never runs and no text is
produced. -/
inductive CallOutcome where
  | ret (text : String)
  | typeError
deriving DecidableEq, Repr

/-- `recommend_stack`: with a (parsed) payload it recommends directly and
never touches the store; with a failed parse it surfaces the diagnostic;
with no payload it attempts `return await start_project_planning()`, a
zero-argument call of the decorated tool whose function requires `ctx`, so
that branch raises `TypeError` instead of returning the guidance text. -/
def recommend_stack (store : Store) (session_requirements : Option ParsedPayload) :
    Store × CallOutcome :=
  match session_requirements with
  | some (.ok req) => (store, .ret (recommendText (analyze_requirements req)))
  | some (.parseError diag) => (store, .ret (parseErrorMsg diag))
  | none => (store, .typeError)

/-- The empty-store message of `explain_recommendation`. -/
def noActiveSessionsMsg : String :=
  "No active planning sessions. Please run start_project_planning first."

/-- The `detail_level == "basic"` explanation, echoing the vision truncated
to its first 100 characters. -/
def explainBasicText (r : ProjectRequirements) : String :=
  "**Why I recommended this stack for your project:**\n\n" ++
  "Based on your vision: \"" ++ pyTake r.project_vision 100 ++ "...\"\n\n" ++
  "• **Easy to start:** The tools I suggested are designed for people who want to focus on their idea, not wrestle with technical setup\n" ++
  "• **Grows with you:** These platforms automatically handle more users without you having to rebuild everything\n" ++
  "• **Budget-friendly:** Fits your " ++ pyReplaceChar r.budget_level '_' ' ' ++
  " budget with predictable costs\n" ++
  "• **Timeline-appropriate:** You can get a working version deployed in " ++
  pyReplaceChar r.timeline '_' ' ' ++ "\n\n" ++
  "The combination of these tools means you spend time building features users want, not managing servers or databases."

/-- The default detailed explanation. -/
def explainDetailedText (r : ProjectRequirements) : String :=
  "**Detailed Technical Reasoning:**\n\n" ++
  "**Project Analysis:**\n" ++
  "- Vision: " ++ r.project_vision ++ "\n" ++
  "- Users: " ++ r.target_users ++ "\n" ++
  "- Scale: " ++ r.user_scale ++ " users expected\n" ++
  "- Timeline: " ++ r.timeline ++ "\n" ++
  "- Budget: " ++ r.budget_level ++ "\n" ++
  "- Technical comfort: " ++ r.technical_comfort ++ "\n\n" ++
  "**Architecture Decisions:**\n\n" ++
  "1. **Frontend Choice:** Modern React-based approach because:\n" ++
  "   - Large community and excellent documentation\n" ++
  "   - Component-based architecture scales well\n" ++
  "   - Great tooling and development experience\n   \n" ++
  "2. **Backend Strategy:** Platform-as-a-Service approach because:\n" ++
  "   - Reduces operational overhead (no server management)\n" ++
  "   - Built-in scaling and security features\n" ++
  "   - Pay-as-you-grow pricing model\n   \n" ++
  "3. **Database Selection:** Based on your data needs:\n" ++
  "   - Managed databases reduce maintenance burden\n" ++
  "   - Built-in backup and security features\n" ++
  "   - Automatic scaling capabilities\n   \n" ++
  "4. **Hosting Platform:** Cloud-native deployment because:\n" ++
  "   - Global CDN for fast performance\n" ++
  "   - Automatic HTTPS and security\n" ++
  "   - Integrated CI/CD pipelines\n\n" ++
  "This stack follows modern \"Jamstack\" principles: JavaScript frontend, APIs, and Markup pre-built where possible."

/-- `explain_recommendation`: a read-only operation on the most-recent
session; the empty store yields the no-active-sessions message. -/
def explain_recommendation (store : Store) (detail_level : String) : String :=
  match maxEntry store with
  | none => noActiveSessionsMsg
  | some (_, r) =>
    if detail_level == "basic" then explainBasicText r else explainDetailedText r

/-! ## Helper lemmas -/

theorem listStarts_self_append (x s : List Char) : listStarts x (x ++ s) = true := by
  induction x with
  | nil => rfl
  | cons a as ih => simp [listStarts, ih]

theorem listHasSub_self_append (x s : List Char) : listHasSub (x ++ s) x = true := by
  cases x with
  | nil =>
    cases s with
    | nil => rfl
    | cons c t => simp [listHasSub, listStarts]
  | cons a as =>
    have h := listStarts_self_append (a :: as) s
    simp only [List.cons_append] at h
    simp [listHasSub, h]

theorem listHasSub_append_left (p rest x : List Char) (h : listHasSub rest x = true) :
    listHasSub (p ++ rest) x = true := by
  induction p with
  | nil => simpa using h
  | cons c t ih => simp [listHasSub, ih]

theorem listHasSub_of_eq_append (hay p x s : List Char) (h : hay = p ++ (x ++ s)) :
    listHasSub hay x = true := by
  subst h
  exact listHasSub_append_left p (x ++ s) x (listHasSub_self_append x s)

/-- A string occurring literally between two others is found by `strHasSub`. -/
theorem strHasSub_middle (p x s : String) : strHasSub (p ++ x ++ s) x = true := by
  apply listHasSub_of_eq_append _ p.data x.data s.data
  simp [String.data_append, List.append_assoc]

theorem charsLt_irrefl (l : List Char) : charsLt l l = false := by
  induction l with
  | nil => rfl
  | cons a as ih => simp [charsLt, ih]

theorem strLt_ne (a b : String) (h : strLt a b = true) : a ≠ b := by
  intro hab
  subst hab
  rw [strLt, charsLt_irrefl] at h
  exact Bool.false_ne_true h

theorem charsLt_append_same (p a b : List Char) :
    charsLt (p ++ a) (p ++ b) = charsLt a b := by
  induction p with
  | nil => rfl
  | cons c t ih => simp [charsLt, ih]

theorem strLt_sessionIdFor (t1 t2 : String) (h : strLt t1 t2 = true) :
    strLt (sessionIdFor t1) (sessionIdFor t2) = true := by
  rw [strLt, sessionIdFor, sessionIdFor, String.data_append, String.data_append,
    charsLt_append_same]
  exact h

theorem lookupSession_insertSession (store : Store) (sid : String)
    (r : ProjectRequirements) : lookupSession (insertSession store sid r) sid = some r := by
  induction store with
  | nil => simp [insertSession, lookupSession]
  | cons e rest ih =>
    obtain ⟨k, v⟩ := e
    by_cases h : k = sid
    · simp [insertSession, lookupSession, h]
    · simp [insertSession, lookupSession, h, ih]

theorem insertSession_fresh (store : Store) (sid : String) (r : ProjectRequirements)
    (h : ∀ k ∈ store.map Prod.fst, k ≠ sid) :
    insertSession store sid r = store ++ [(sid, r)] := by
  induction store with
  | nil => rfl
  | cons e rest ih =>
    obtain ⟨k, v⟩ := e
    have hk : k ≠ sid := h k (by simp)
    simp only [insertSession, if_neg hk, List.cons_append, List.cons.injEq, true_and]
    exact ih (fun k' hk' => h k' (by simp [hk']))

theorem maxEntry_append_gt (store : Store) (sid : String) (r : ProjectRequirements)
    (h : ∀ k ∈ store.map Prod.fst, strLt k sid = true) :
    maxEntry (store ++ [(sid, r)]) = some (sid, r) := by
  induction store with
  | nil => rfl
  | cons e rest ih =>
    obtain ⟨k, v⟩ := e
    have hrest := ih (fun k' hk' => h k' (by simp [hk']))
    have hk : strLt k sid = true := h k (by simp)
    simp [maxEntry, hrest, hk]

theorem dropWhile_isPySpace_idem (l : List Char) :
    List.dropWhile isPySpace (List.dropWhile isPySpace l) = List.dropWhile isPySpace l := by
  induction l with
  | nil => rfl
  | cons c t ih =>
    by_cases h : isPySpace c
    · simp [List.dropWhile_cons, h, ih]
    · simp [List.dropWhile_cons, h]

theorem dropTrailing_cons (c : Char) (t : List Char) :
    dropTrailing (c :: t) =
      match dropTrailing t with
      | [] => if isPySpace c then [] else [c]
      | h :: t' => c :: h :: t' := rfl

theorem dropTrailing_idem (l : List Char) : dropTrailing (dropTrailing l) = dropTrailing l := by
  induction l with
  | nil => rfl
  | cons c t ih =>
    cases ht : dropTrailing t with
    | nil =>
      by_cases h : isPySpace c
      · simp [dropTrailing_cons, ht, h, dropTrailing]
      · simp [dropTrailing_cons, ht, h, dropTrailing]
    | cons h' t' =>
      rw [ht] at ih
      rw [dropTrailing_cons, ht]
      rw [dropTrailing_cons, ih]

theorem dropWhile_dropTrailing (m : List Char) (h : List.dropWhile isPySpace m = m) :
    List.dropWhile isPySpace (dropTrailing m) = dropTrailing m := by
  cases m with
  | nil => rfl
  | cons c t =>
    have hc : isPySpace c = false := by
      by_cases hp : isPySpace c
      · exfalso
        rw [List.dropWhile_cons, if_pos hp] at h
        have hlen := congrArg List.length h
        have hle : (List.dropWhile isPySpace t).length ≤ t.length :=
          (List.dropWhile_sublist isPySpace).length_le
        simp only [List.length_cons] at hlen
        omega
      · simpa using hp
    cases hdt : dropTrailing t with
    | nil =>
      by_cases hp : isPySpace c
      · simp [hp] at hc
      · simp [dropTrailing, hdt, hp, List.dropWhile_cons]
    | cons h' t' => simp [dropTrailing, hdt, List.dropWhile_cons, hc]

theorem stripChars_idem (l : List Char) : stripChars (stripChars l) = stripChars l := by
  rw [stripChars, stripChars,
    dropWhile_dropTrailing (List.dropWhile isPySpace l) (dropWhile_isPySpace_idem l),
    dropTrailing_idem]

theorem pyStrip_stripChars (l : List Char) :
    pyStrip (⟨stripChars l⟩ : String) = (⟨stripChars l⟩ : String) := by
  simp [pyStrip, stripChars_idem]

/-! ## Sample records and stores used in concrete statements -/

/-- A record triggering both `needs_database` and `needs_auth`, with low
technical comfort. -/
def bothTrueLowComfort : ProjectRequirements :=
  { data_needs := "data", core_features := ["login"],
    technical_comfort := "avoid_technical" }

/-- Identical to `bothTrueLowComfort` except for `technical_comfort`. -/
def bothTrueHighComfort : ProjectRequirements :=
  { data_needs := "data", core_features := ["login"],
    technical_comfort := "enjoy_technical" }

/-- A record triggering `needs_database` only. -/
def dbOnlyReq : ProjectRequirements := { data_needs := "data" }

/-- A one-session store used to instantiate hypotheses about session lookup. -/
def demoStore : Store :=
  [(sessionIdFor "20250101_000000", mkDefaultRequirements "2025-01-01T00:00:00")]

/-! ## Claims -/

/-- C1, counterexample: two requirements records agreeing on every
signal-relevant field and both taking the (needsDatabase, needsAuth)
both-true branch receive different backend strings, because the both-true
branch additionally branches on `technical_comfort`.  This refutes the claim
that the backend recommendation is a 2×2 table on (needsDatabase, needsAuth)
alone with one fixed string per cell. -/
theorem claim_C1_counterexample :
    needs_database bothTrueLowComfort = true ∧ needs_auth bothTrueLowComfort = true ∧
    needs_database bothTrueHighComfort = true ∧ needs_auth bothTrueHighComfort = true ∧
    bothTrueLowComfort.data_needs = bothTrueHighComfort.data_needs ∧
    bothTrueLowComfort.core_features = bothTrueHighComfort.core_features ∧
    backend_rec bothTrueLowComfort ≠ backend_rec bothTrueHighComfort := by
  refine ⟨by decide, by decide, by decide, by decide, rfl, rfl, by decide⟩

/-- C1, amended: the backend recommendation depends only on the triple
(needsDatabase, needsAuth, technical_comfort); the database-only, auth-only
and neither branches are fixed constants unaffected by `technical_comfort`,
while the both-true branch further splits on
`technical_comfort ∈ {avoid_technical, basic_setup}` between the Supabase
and the Neon + Clerk stack. -/
theorem claim_C1_amended :
    (∀ r₁ r₂ : ProjectRequirements, needs_database r₁ = needs_database r₂ →
       needs_auth r₁ = needs_auth r₂ → r₁.technical_comfort = r₂.technical_comfort →
       backend_rec r₁ = backend_rec r₂) ∧
    (∀ (r : ProjectRequirements) (c : String), (needs_database r && needs_auth r) = false →
       backend_rec { r with technical_comfort := c } = backend_rec r) ∧
    (∀ r : ProjectRequirements, needs_database r = true → needs_auth r = true →
       lowComfort r = true →
       backend_rec r = "Next.js API routes with Supabase (includes auth + database)") ∧
    (∀ r : ProjectRequirements, needs_database r = true → needs_auth r = true →
       lowComfort r = false →
       backend_rec r = "Next.js API routes with Neon (serverless Postgres) + Clerk auth") ∧
    (∀ r : ProjectRequirements, needs_database r = true → needs_auth r = false →
       backend_rec r = "Next.js API routes with Neon (serverless Postgres)") ∧
    (∀ r : ProjectRequirements, needs_database r = false → needs_auth r = true →
       backend_rec r = "Next.js API routes with Clerk auth") ∧
    (∀ r : ProjectRequirements, needs_database r = false → needs_auth r = false →
       backend_rec r = "Next.js API routes (for any server functionality)") := by
  refine ⟨?_, ?_, ?_, ?_, ?_, ?_, ?_⟩
  · intro r₁ r₂ h1 h2 h3
    simp only [backend_rec, lowComfort, h1, h2, h3]
  · intro r c h
    have hdb : needs_database { r with technical_comfort := c } = needs_database r := rfl
    have hau : needs_auth { r with technical_comfort := c } = needs_auth r := rfl
    simp [backend_rec, hdb, hau, h]
  · intro r h1 h2 h3
    simp [backend_rec, h1, h2, h3]
  · intro r h1 h2 h3
    simp [backend_rec, h1, h2, h3]
  · intro r h1 h2
    simp [backend_rec, h1, h2]
  · intro r h1 h2
    simp [backend_rec, h1, h2]
  · intro r h1 h2
    simp [backend_rec, h1, h2]

/-- C1, witness for the amended claim at concrete records. -/
theorem claim_C1_amended_witness :
    backend_rec bothTrueLowComfort =
      "Next.js API routes with Supabase (includes auth + database)" ∧
    backend_rec dbOnlyReq = "Next.js API routes with Neon (serverless Postgres)" :=
  ⟨claim_C1_amended.2.2.1 bothTrueLowComfort (by decide) (by decide) (by decide),
   claim_C1_amended.2.2.2.2.1 dbOnlyReq (by decide) (by decide)⟩

/-- C2, counterexample: `start_project_planning` on the empty store inserts
nothing — the store stays empty and there is still no most-recent session —
refuting the claim that this operation creates a session id and inserts a
default record on every call. -/
theorem claim_C2_counterexample :
    (start_project_planning ([] : Store)).1 = ([] : Store) ∧
    maxKey (start_project_planning ([] : Store)).1 = none :=
  ⟨rfl, rfl⟩

/-- C2, amended: `start_project_planning` only returns guidance text and
leaves the store unchanged; it is `collect_project_vision` that creates the
session: it derives the id `planning_<timestamp>`, so ids of strictly
increasing timestamps are distinct and monotonically sortable, inserts a
default record carrying the vision under that id, and — whenever the new id
is greater than every existing key — makes it the session resolved by
session-id-omitting calls. -/
theorem claim_C2_amended :
    (∀ store : Store, start_project_planning store = (store, start_planning_text)) ∧
    (∀ t1 t2 : String, strLt t1 t2 = true →
       sessionIdFor t1 ≠ sessionIdFor t2 ∧
       strLt (sessionIdFor t1) (sessionIdFor t2) = true) ∧
    (∀ (store : Store) (ts now_iso vision : String),
       lookupSession (collect_project_vision store ts now_iso vision).1 (sessionIdFor ts) =
         some { mkDefaultRequirements now_iso with project_vision := vision }) ∧
    (∀ (store : Store) (ts now_iso vision : String),
       (∀ k ∈ store.map Prod.fst, strLt k (sessionIdFor ts) = true) →
       resolveSid (collect_project_vision store ts now_iso vision).1 none =
         some (sessionIdFor ts)) := by
  refine ⟨fun _ => rfl, ?_, ?_, ?_⟩
  · intro t1 t2 h
    exact ⟨strLt_ne _ _ (strLt_sessionIdFor t1 t2 h), strLt_sessionIdFor t1 t2 h⟩
  · intro store ts now_iso vision
    exact lookupSession_insertSession store (sessionIdFor ts) _
  · intro store ts now_iso vision h
    have hfresh : ∀ k ∈ store.map Prod.fst, k ≠ sessionIdFor ts :=
      fun k hk => strLt_ne _ _ (h k hk)
    show maxKey (collect_project_vision store ts now_iso vision).1 = some (sessionIdFor ts)
    have h1 : (collect_project_vision store ts now_iso vision).1 =
        store ++ [(sessionIdFor ts,
          { mkDefaultRequirements now_iso with project_vision := vision })] := by
      simp only [collect_project_vision]
      exact insertSession_fresh store (sessionIdFor ts) _ hfresh
    rw [h1, maxKey, maxEntry_append_gt store (sessionIdFor ts) _ h]
    rfl

/-- C2, witness for the amended claim: a later-timestamped session id is new
and distinct, and becomes the most-recent target. -/
theorem claim_C2_amended_witness :
    sessionIdFor "20250101_000000" ≠ sessionIdFor "20250101_000001" ∧
    resolveSid (collect_project_vision demoStore
        "20250101_000001" "2025-01-01T00:00:01" "a task app").1 none =
      some (sessionIdFor "20250101_000001") :=
  ⟨(claim_C2_amended.2.1 "20250101_000000" "20250101_000001" (by decide)).1,
   claim_C2_amended.2.2.2 demoStore "20250101_000001" "2025-01-01T00:00:01" "a task app"
     (by decide)⟩

/-- C3: `recommend_stack` with no serialized-requirements argument was meant
to delegate to `start_project_planning` and return its guidance text, but
the zero-argument call of the decorated tool raises `TypeError` (the
underlying function's `ctx` parameter is never supplied), so the call ends
in the raised exception — which is not the guidance text the properly
dispatched `start_project_planning` tool returns. -/
theorem claim_C3 : ∀ store : Store,
    recommend_stack store none = (store, CallOutcome.typeError) ∧
    start_project_planning store = (store, start_planning_text) ∧
    CallOutcome.typeError ≠ CallOutcome.ret start_planning_text :=
  fun _ => ⟨rfl, rfl, by simp⟩

/-- C5: for every store and every payload whose parse fails with any
diagnostic, `recommend_stack` returns the malformed-payload message carrying
that diagnostic verbatim and returns the store unchanged. -/
theorem claim_C5 : ∀ (store : Store) (diag : String),
    recommend_stack store (some (ParsedPayload.parseError diag)) =
      (store, CallOutcome.ret (parseErrorMsg diag)) ∧
    strHasSub (parseErrorMsg diag) diag = true := by
  intro store diag
  exact ⟨rfl, strHasSub_middle "Error parsing requirements: " diag
    ". Please use start_project_planning instead."⟩

/-- C8: the engine's cost estimate depends only on `budget_level`:
`free_only` always maps to the free-tier string, `low_cost` to the mid
string, and `reasonable` and `flexible` collapse to the same default-branch
string, regardless of every other field. -/
theorem claim_C8 :
    (∀ r₁ r₂ : ProjectRequirements, r₁.budget_level = r₂.budget_level →
       (analyze_requirements r₁).cost_estimate = (analyze_requirements r₂).cost_estimate) ∧
    (∀ r : ProjectRequirements, r.budget_level = "free_only" →
       (analyze_requirements r).cost_estimate = "$0-20/month (generous free tiers + domain)") ∧
    (∀ r : ProjectRequirements, r.budget_level = "low_cost" →
       (analyze_requirements r).cost_estimate = "$20-50/month") ∧
    (∀ r : ProjectRequirements, r.budget_level = "reasonable" ∨ r.budget_level = "flexible" →
       (analyze_requirements r).cost_estimate = "$50-150/month with room to scale") := by
  refine ⟨?_, ?_, ?_, ?_⟩
  · intro r₁ r₂ h
    simp only [analyze_requirements, cost_estimate_of, h]
  · intro r h
    simp [analyze_requirements, cost_estimate_of, h]
  · intro r h
    simp [analyze_requirements, cost_estimate_of, h]
  · intro r h
    rcases h with h | h <;> simp [analyze_requirements, cost_estimate_of, h]

/-- C8, witness at concrete records differing in unrelated fields. -/
theorem claim_C8_witness :
    (analyze_requirements { budget_level := "free_only", project_vision := "x" }).cost_estimate =
      "$0-20/month (generous free tiers + domain)" ∧
    (analyze_requirements { budget_level := "flexible" }).cost_estimate =
      "$50-150/month with room to scale" ∧
    (analyze_requirements { budget_level := "reasonable", project_vision := "a" }).cost_estimate =
      (analyze_requirements { budget_level := "reasonable", target_users := "b" }).cost_estimate :=
  ⟨claim_C8.2.1 _ rfl, claim_C8.2.2.2 _ (Or.inr rfl), claim_C8.1 _ _ rfl⟩

/-- Shared success lemma: a valid `finalize_planning` call stores the three
submitted enum values verbatim plus the `"small_start"` scale sentinel. -/
theorem finalize_success_lookup (store : Store) (sid : String) (r : ProjectRequirements)
    (t b c : String) (h : lookupSession store sid = some r)
    (ht : valid_timelines.contains t = true) (hb : valid_budgets.contains b = true)
    (hc : valid_comfort.contains c = true) :
    lookupSession (finalize_planning store t b c (some sid)).1 sid =
      some { r with timeline := t, budget_level := b, technical_comfort := c,
                    user_scale := "small_start" } := by
  simp only [finalize_planning, resolveSid, h, ht, hb, hc]
  simp only [Bool.true_eq_false, if_false]
  exact lookupSession_insertSession store sid _

/-- C4: with a resolvable session, `finalize_planning` rejects any of the
three enum fields outside its allowed set with the corresponding invalid-value
message — leaving the store (hence the session record) unchanged — and each
such message enumerates all allowed values; with all three valid it stores
exactly the submitted values, so inspecting the record afterwards yields them
unchanged. -/
theorem claim_C4 :
    (∀ (store : Store) (sid : String) (r : ProjectRequirements) (t b c : String),
       lookupSession store sid = some r →
       (valid_timelines.contains t = false →
          finalize_planning store t b c (some sid) = (store, invalidTimelineMsg)) ∧
       (valid_timelines.contains t = true → valid_budgets.contains b = false →
          finalize_planning store t b c (some sid) = (store, invalidBudgetMsg)) ∧
       (valid_timelines.contains t = true → valid_budgets.contains b = true →
          valid_comfort.contains c = false →
          finalize_planning store t b c (some sid) = (store, invalidComfortMsg)) ∧
       (valid_timelines.contains t = true → valid_budgets.contains b = true →
          valid_comfort.contains c = true →
          lookupSession (finalize_planning store t b c (some sid)).1 sid =
            some { r with timeline := t, budget_level := b, technical_comfort := c,
                          user_scale := "small_start" })) ∧
    (∀ v ∈ valid_timelines, strHasSub invalidTimelineMsg v = true) ∧
    (∀ v ∈ valid_budgets, strHasSub invalidBudgetMsg v = true) ∧
    (∀ v ∈ valid_comfort, strHasSub invalidComfortMsg v = true) := by
  refine ⟨?_, by decide, by decide, by decide⟩
  intro store sid r t b c h
  refine ⟨?_, ?_, ?_, fun ht hb hc => finalize_success_lookup store sid r t b c h ht hb hc⟩
  · intro ht
    simp only [finalize_planning, resolveSid, h, ht]
    simp
  · intro ht hb
    simp only [finalize_planning, resolveSid, h, ht, hb]
    simp
  · intro ht hb hc
    simp only [finalize_planning, resolveSid, h, ht, hb, hc]
    simp

/-- The record a successful demo `finalize_planning` call should leave behind. -/
def finalizedDemoReq : ProjectRequirements :=
  { mkDefaultRequirements "2025-01-01T00:00:00" with
      timeline := "urgent", budget_level := "free_only",
      technical_comfort := "basic_setup", user_scale := "small_start" }

/-- C4, witness: a rejected and an accepted call on a concrete store. -/
theorem claim_C4_witness :
    finalize_planning demoStore "soon" "free_only" "basic_setup"
        (some (sessionIdFor "20250101_000000")) = (demoStore, invalidTimelineMsg) ∧
    lookupSession (finalize_planning demoStore "urgent" "free_only" "basic_setup"
        (some (sessionIdFor "20250101_000000"))).1 (sessionIdFor "20250101_000000") =
      some finalizedDemoReq ∧
    strHasSub invalidTimelineMsg "month_or_two" = true :=
  ⟨(claim_C4.1 demoStore (sessionIdFor "20250101_000000")
      (mkDefaultRequirements "2025-01-01T00:00:00") "soon" "free_only" "basic_setup"
      (by decide)).1 (by decide),
   (claim_C4.1 demoStore (sessionIdFor "20250101_000000")
      (mkDefaultRequirements "2025-01-01T00:00:00") "urgent" "free_only" "basic_setup"
      (by decide)).2.2.2 (by decide) (by decide) (by decide),
   claim_C4.2.1 "month_or_two" (by decide)⟩

/-- The spec's worked example: `data_needs="store user profiles"`,
features `["login"]`. -/
def sampleReqs : ProjectRequirements :=
  { data_needs := "store user profiles", core_features := ["login"] }

/-- The same record with the data needs upper-cased. -/
def sampleReqsUpper : ProjectRequirements :=
  { data_needs := "STORE USER PROFILES", core_features := ["login"] }

/-- C6: the three boolean signals are exactly the stated case-insensitive
keyword searches — `needsDatabase` and `needsRealtime` over the
concatenation of `data_needs` and the joined features, `needsAuth` over the
features alone — and on the worked example (`data_needs="store user
profiles"`, features `["login"]`, in either letter case) both database and
auth signals fire and the both-true backend branch is taken. -/
theorem claim_C6 :
    (∀ r : ProjectRequirements, needs_database r = true ↔
       ∃ kw ∈ (["store", "save", "profile", "user", "account", "data", "records"] :
         List String), strHasSub (dataFeaturesHay r) kw = true) ∧
    (∀ r : ProjectRequirements, needs_auth r = true ↔
       ∃ kw ∈ (["login", "account", "user", "profile", "auth", "signup"] :
         List String), strHasSub (pyLower (joinWith " " r.core_features)) kw = true) ∧
    (∀ r : ProjectRequirements, needs_real_time r = true ↔
       ∃ kw ∈ (["chat", "message", "notification", "real-time", "live", "collaborative"] :
         List String), strHasSub (dataFeaturesHay r) kw = true) ∧
    (needs_database sampleReqs = true ∧ needs_auth sampleReqs = true ∧
       (needs_database sampleReqs && needs_auth sampleReqs) = true) ∧
    (needs_database sampleReqsUpper = true ∧ needs_auth sampleReqsUpper = true) ∧
    backend_rec sampleReqs =
      "Next.js API routes with Neon (serverless Postgres) + Clerk auth" ∧
    backend_rec sampleReqsUpper = backend_rec sampleReqs := by
  refine ⟨?_, ?_, ?_, by decide, by decide, by decide, by decide⟩
  · intro r
    exact List.any_eq_true
  · intro r
    exact List.any_eq_true
  · intro r
    exact List.any_eq_true

/-- C7: `collect_features_data` stores as the feature sequence the
comma-separated segments of its input, each stripped, with empty segments
dropped and order preserved (the stored list is a sublist of the stripped
segment list); every stored feature is nonempty and fully stripped; and the
input `"a, b ,, c"` yields exactly `["a", "b", "c"]`. -/
theorem claim_C7 :
    (∀ (store : Store) (sid : String) (r : ProjectRequirements) (dn : String),
       lookupSession store sid = some r →
       lookupSession (collect_features_data store "a, b ,, c" dn (some sid)).1 sid =
         some { r with core_features := ["a", "b", "c"], data_needs := dn }) ∧
    parse_core_features "a, b ,, c" = ["a", "b", "c"] ∧
    (∀ s : String, List.Sublist (parse_core_features s)
       ((splitCommaChars s.data).map (fun seg => (⟨stripChars seg⟩ : String)))) ∧
    (∀ (s : String) (f : String), f ∈ parse_core_features s →
       f ≠ "" ∧ pyStrip f = f) := by
  refine ⟨?_, by decide, ?_, ?_⟩
  · intro store sid r dn h
    simp only [collect_features_data, resolveSid, h]
    rw [show parse_core_features "a, b ,, c" = ["a", "b", "c"] from by decide]
    exact lookupSession_insertSession store sid _
  · intro s
    exact List.filter_sublist _
  · intro s f hf
    unfold parse_core_features at hf
    obtain ⟨hmem, hpred⟩ := List.mem_filter.mp hf
    obtain ⟨seg, hseg, heq⟩ := List.mem_map.mp hmem
    subst heq
    exact ⟨of_decide_eq_true hpred, pyStrip_stripChars seg⟩

/-- C7, witness at the spec's example input. -/
theorem claim_C7_witness :
    lookupSession (collect_features_data demoStore "a, b ,, c" "some notes"
        (some (sessionIdFor "20250101_000000"))).1 (sessionIdFor "20250101_000000") =
      some { mkDefaultRequirements "2025-01-01T00:00:00" with
               core_features := ["a", "b", "c"], data_needs := "some notes" } ∧
    ("a" ≠ "" ∧ pyStrip "a" = "a") :=
  ⟨claim_C7.1 demoStore (sessionIdFor "20250101_000000")
     (mkDefaultRequirements "2025-01-01T00:00:00") "some notes" (by decide),
   claim_C7.2.2.2 "a, b ,, c" "a" (by decide)⟩

/-- The record stored in `visionStore`. -/
def visionReq : ProjectRequirements :=
  { mkDefaultRequirements "2025-01-01T00:00:00" with project_vision := "a task app" }

/-- A one-completed-session store for the explanation claims. -/
def visionStore : Store := [(sessionIdFor "20250101_000000", visionReq)]

/-- C9: `explain_recommendation` at detail level `"basic"` on the empty
store returns the no-active-sessions failure message; on any store with a
most-recent session it returns the basic explanation of that session, whose
text contains the vision truncated to its first 100 characters. -/
theorem claim_C9 :
    explain_recommendation ([] : Store) "basic" = noActiveSessionsMsg ∧
    (∀ (store : Store) (sid : String) (r : ProjectRequirements),
       maxEntry store = some (sid, r) →
       explain_recommendation store "basic" = explainBasicText r ∧
       strHasSub (explainBasicText r) (pyTake r.project_vision 100) = true) := by
  refine ⟨rfl, ?_⟩
  intro store sid r h
  constructor
  · simp [explain_recommendation, h]
  · rw [strHasSub]
    simp only [explainBasicText, String.data_append, List.append_assoc]
    apply listHasSub_append_left
    apply listHasSub_append_left
    exact listHasSub_self_append _ _

/-- C9, witness: the empty store fails; a one-session store succeeds and the
truncated vision appears in the output. -/
theorem claim_C9_witness :
    explain_recommendation visionStore "basic" = explainBasicText visionReq ∧
    strHasSub (explainBasicText visionReq) (pyTake visionReq.project_vision 100) = true :=
  claim_C9.2 visionStore (sessionIdFor "20250101_000000") visionReq (by decide)

/-- C10: whenever the scale field is written — by `collect_scale_timeline`
with a valid submitted scale, or by a successful `finalize_planning` — the
stored `user_scale` is the fixed sentinel `"small_start"`, independent of the
submitted value (which is only validated: an invalid scale is rejected with
the enumerating message and the store is unchanged). -/
theorem claim_C10 :
    (∀ (store : Store) (sid : String) (r : ProjectRequirements) (us tl : String),
       lookupSession store sid = some r →
       valid_scales.contains us = true → valid_timelines.contains tl = true →
       lookupSession (collect_scale_timeline store us tl (some sid)).1 sid =
         some { r with user_scale := "small_start", timeline := tl }) ∧
    (∀ (store : Store) (sid : String) (r : ProjectRequirements) (us tl : String),
       lookupSession store sid = some r →
       valid_scales.contains us = false →
       collect_scale_timeline store us tl (some sid) = (store, invalidScaleMsg)) ∧
    (∀ (store : Store) (sid : String) (r : ProjectRequirements) (t b c : String),
       lookupSession store sid = some r →
       valid_timelines.contains t = true → valid_budgets.contains b = true →
       valid_comfort.contains c = true →
       (lookupSession (finalize_planning store t b c (some sid)).1 sid).map
         (fun x => x.user_scale) = some "small_start") := by
  refine ⟨?_, ?_, ?_⟩
  · intro store sid r us tl h hs ht
    simp only [collect_scale_timeline, resolveSid, h, hs, ht]
    simp only [Bool.true_eq_false, if_false]
    exact lookupSession_insertSession store sid _
  · intro store sid r us tl h hs
    simp only [collect_scale_timeline, resolveSid, h, hs]
    simp
  · intro store sid r t b c h ht hb hc
    rw [finalize_success_lookup store sid r t b c h ht hb hc]
    rfl

/-- C10, witness: a valid call stores the sentinel, an invalid scale is
rejected, and a successful finalize also stores the sentinel. -/
theorem claim_C10_witness :
    lookupSession (collect_scale_timeline demoStore "thousands_plus" "urgent"
        (some (sessionIdFor "20250101_000000"))).1 (sessionIdFor "20250101_000000") =
      some { mkDefaultRequirements "2025-01-01T00:00:00" with
               user_scale := "small_start", timeline := "urgent" } ∧
    collect_scale_timeline demoStore "huge" "urgent"
        (some (sessionIdFor "20250101_000000")) = (demoStore, invalidScaleMsg) ∧
    (lookupSession (finalize_planning demoStore "urgent" "low_cost" "enjoy_technical"
        (some (sessionIdFor "20250101_000000"))).1 (sessionIdFor "20250101_000000")).map
      (fun x => x.user_scale) = some "small_start" :=
  ⟨claim_C10.1 demoStore (sessionIdFor "20250101_000000")
     (mkDefaultRequirements "2025-01-01T00:00:00") "thousands_plus" "urgent"
     (by decide) (by decide) (by decide),
   claim_C10.2.1 demoStore (sessionIdFor "20250101_000000")
     (mkDefaultRequirements "2025-01-01T00:00:00") "huge" "urgent"
     (by decide) (by decide),
   claim_C10.2.2 demoStore (sessionIdFor "20250101_000000")
     (mkDefaultRequirements "2025-01-01T00:00:00") "urgent" "low_cost" "enjoy_technical"
     (by decide) (by decide) (by decide) (by decide)⟩
